import Mathlib

/-!
Shallow embedding of the nexus background worker core:
the job scheduler (`src/worker/nexus_worker/jobs/base.py`, `src/src/worker/scheduler.py`)
and the session-upload job (`src/src/jobs/session_upload.py`).

Time is modelled as `Nat` seconds on a monotone wall clock.  The filesystem
state of one agent is modelled by an explicit list of the regular files
directly inside the sessions directory (name and byte size), together with
the parse state of `sessions.json`.  HTTP is modelled by an oracle giving,
per request, either a status code with a body or a transport failure.
-/

namespace Nexus

/-- `JobResult` dataclass from `jobs/base.py`: outcome record of one job run. -/
structure JobResult where
  job_id : String
  success : Bool
  message : String
  items_processed : Nat
  errors : List String
deriving Repr, DecidableEq

/-- The scheduling-relevant state of a `Job` from `jobs/base.py`:
`interval_minutes`, the optional `last_run` timestamp, plus identity fields. -/
structure JobState where
  id : String
  enabled : Bool
  interval_minutes : Nat
  last_run : Option Nat
deriving Repr, DecidableEq

/-- `Job.is_due` from `jobs/base.py`: true when `last_run` is unset, or when
the elapsed seconds since `last_run` reach `interval_minutes * 60`. -/
def isDue (j : JobState) (now : Nat) : Bool :=
  match j.last_run with
  | none => true
  | some t => decide (j.interval_minutes * 60 ≤ now - t)

/-- `Job.mark_run` from `jobs/base.py`: sets `last_run` to the current time. -/
def markRun (j : JobState) (now : Nat) : JobState :=
  { j with last_run := some now }

/-- `run_job` from `scheduler.py`: runs the job, and on an uncaught exception
synthesizes a failed result; `mark_run` happens on both paths.  The outcome
of calling `job.run` is passed in explicitly: a normal `JobResult`, or an
uncaught Python exception carrying its message text.  Returns the result
together with the job state after the execution attempt. -/
def runJob (j : JobState) (now : Nat) (outcome : Except String JobResult) :
    JobResult × JobState :=
  match outcome with
  | .ok r => (r, markRun j now)
  | .error e =>
      (⟨j.id, false, "Exception: " ++ e, 0, [e]⟩, markRun j now)

/-! ## Session-upload job (`src/src/jobs/session_upload.py`) -/

/-- One regular file directly inside an agent's sessions directory. -/
structure SFile where
  name : String
  size : Nat
deriving Repr, DecidableEq

/-- Result of the HTTP POST in `_upload_session`: a response with a status
code and body text, or a `requests.RequestException` (network/transport
failure) with its message. -/
inductive HttpResult where
  | status (code : Nat) (body : String)
  | netError (msg : String)
deriving Repr, DecidableEq

/-- `MAX_TRANSCRIPT_BYTES` from `session_upload.py`: 10 MiB size cap. -/
def MAX_TRANSCRIPT_BYTES : Nat := 10485760

/-- Observable behaviour of one `_upload_session` call: whether the HTTP
request was issued at all, and the boolean the function returns. -/
structure UploadOutcome where
  networkCall : Bool
  success : Bool
deriving Repr, DecidableEq

/-- `_upload_session` from `session_upload.py`: refuses oversized files
before any network activity, then classifies the response status. -/
def uploadSession (fileSize : Nat) (r : HttpResult) : UploadOutcome :=
  if MAX_TRANSCRIPT_BYTES < fileSize then ⟨false, false⟩
  else
    match r with
    | .status code _ =>
        if code = 200 then ⟨true, true⟩
        else if code = 409 then ⟨true, true⟩
        else if code = 413 then ⟨true, false⟩
        else ⟨true, false⟩
    | .netError _ => ⟨true, false⟩

/-- Character-list version of "list `p` occurs at the start of `l`". -/
def beginsWith : List Char → List Char → Bool
  | [], _ => true
  | _ :: _, [] => false
  | p :: ps, c :: cs => p == c && beginsWith ps cs

/-- Character-list version of "pattern `p` occurs somewhere inside `l`". -/
def containsSeq (p : List Char) : List Char → Bool
  | [] => beginsWith p []
  | c :: rest => beginsWith p (c :: rest) || containsSeq p rest

/-- The glob `*.jsonl*` used by `_find_completed_sessions`: `pathlib` glob
with `*` matching any run of characters, so a name matches exactly when it
contains the substring `.jsonl`. -/
def matchesJsonlGlob (name : String) : Bool :=
  containsSeq ".jsonl".toList name.toList

/-- `_extract_session_id` from `session_upload.py`: the first 36 characters
of the filename, accepted when the name is at least 36 characters long and
those 36 characters contain exactly 4 hyphens; no hex check. -/
def extractSessionId (filename : String) : Option String :=
  if 36 ≤ filename.length then
    let sid := filename.toList.take 36
    if sid.length = 36 ∧ sid.count '-' = 4 then some (String.mk sid) else none
  else none

/-- Parse state of the `sessions.json` file in an agent's sessions
directory, as `_get_active_sessions` distinguishes the cases. -/
inductive SessionsJsonState where
  | missing
  | unreadable
  | parsedDict (keys : List String)
  | parsedOther
deriving Repr, DecidableEq

/-- `_get_active_sessions` from `session_upload.py`: keys of the parsed
dict; missing, unreadable/malformed, and non-dict JSON all degrade to the
empty active set. -/
def getActiveSessions : SessionsJsonState → List String
  | .missing => []
  | .unreadable => []
  | .parsedDict keys => keys
  | .parsedOther => []

/-- `_find_completed_sessions` from `session_upload.py`: the files matching
`*.jsonl*` whose extracted session id exists and is not an active session. -/
def findCompletedSessions (files : List SFile) (active : List String) :
    List SFile :=
  files.filter fun f =>
    matchesJsonlGlob f.name &&
      match extractSessionId f.name with
      | some sid => !(active.contains sid)
      | none => false

/-- Accumulated per-agent outcome of `_process_agent`'s upload loop:
the `uploaded` counter, the `errors` list, and the names of the files moved
into the `archive/` subdirectory by `_archive_session`. -/
structure AgentAcc where
  uploaded : Nat
  errors : List String
  archived : List String
deriving Repr, DecidableEq

/-- The upload loop of `_process_agent` over the completed candidates, in
list order: per file, re-extract the session id (reporting an invalid
filename as an error if absent), upload, then archive and count on success
or record an upload-failure error.  `resp` gives the HTTP result for each
session id. -/
def processCompleted (resp : String → HttpResult) : List SFile → AgentAcc
  | [] => ⟨0, [], []⟩
  | f :: rest =>
      let head : AgentAcc :=
        match extractSessionId f.name with
        | none => ⟨0, ["Invalid session filename: " ++ f.name], []⟩
        | some sid =>
            if (uploadSession f.size (resp sid)).success
            then ⟨1, [], [f.name]⟩
            else ⟨0, ["Upload failed: " ++ sid], []⟩
      let tail := processCompleted resp rest
      ⟨head.uploaded + tail.uploaded, head.errors ++ tail.errors,
        head.archived ++ tail.archived⟩

/-- `_process_agent` from `session_upload.py`: read the active set, find
the completed candidates, and run the upload loop over them. -/
def processAgent (files : List SFile) (sessionsJson : SessionsJsonState)
    (resp : String → HttpResult) : AgentAcc :=
  processCompleted resp
    (findCompletedSessions files (getActiveSessions sessionsJson))

/-- One agent's filesystem as `run` observes it: whether the sessions
directory exists, the regular files directly inside it, and the state of
its `sessions.json`. -/
structure AgentCfg where
  dirExists : Bool
  files : List SFile
  sessionsJson : SessionsJsonState

/-- The per-agent loop of `SessionUploadJob.run`, in list order: an agent id
absent from the registry is an error; an agent whose sessions directory does
not exist is skipped with a warning; otherwise `_process_agent` runs. -/
def processAgents (agents : String → Option AgentCfg)
    (resp : String → String → HttpResult) : List String → AgentAcc
  | [] => ⟨0, [], []⟩
  | aid :: rest =>
      let head : AgentAcc :=
        match agents aid with
        | none => ⟨0, ["Agent not found in config: " ++ aid], []⟩
        | some cfg =>
            if cfg.dirExists
            then processAgent cfg.files cfg.sessionsJson (resp aid)
            else ⟨0, [], []⟩
      let tail := processAgents agents resp rest
      ⟨head.uploaded + tail.uploaded, head.errors ++ tail.errors,
        head.archived ++ tail.archived⟩

/-- The `agents` option of the job's config mapping: `config.get("agents", [])`
yields the empty list when the option is absent. -/
def agentIdsOfConfig : Option (List String) → List String
  | none => []
  | some l => l

/-- `SessionUploadJob.run` from `session_upload.py`: no-op success on an
empty agent list, otherwise aggregate the per-agent outcomes into a
`JobResult`; returned alongside the names of all files archived during the
run (the run's filesystem side effect). -/
def runSessionUpload (jobId : String) (agentIds : List String)
    (agents : String → Option AgentCfg)
    (resp : String → String → HttpResult) : JobResult × List String :=
  if agentIds.isEmpty then
    (⟨jobId, true, "No agents configured", 0, []⟩, [])
  else
    let acc := processAgents agents resp agentIds
    let ok := acc.errors.isEmpty || decide (0 < acc.uploaded)
    let msg :=
      if acc.errors.isEmpty then
        "Uploaded " ++ toString acc.uploaded ++ " sessions"
      else
        "Uploaded " ++ toString acc.uploaded ++ " sessions, " ++
          toString acc.errors.length ++ " errors"
    (⟨jobId, ok, msg, acc.uploaded, acc.errors⟩, acc.archived)

/-- Status classes `_upload_session` treats as success: 200 and 409. -/
def isSuccessStatus : HttpResult → Bool
  | .status code _ => code == 200 || code == 409
  | .netError _ => false

/-! ## Helper lemmas -/

/-- `_upload_session` reaches the HTTP POST exactly when the file size is
within the 10 MiB cap. -/
lemma uploadSession_networkCall (s : Nat) (r : HttpResult) :
    (uploadSession s r).networkCall = decide (s ≤ MAX_TRANSCRIPT_BYTES) := by
  unfold uploadSession
  by_cases h : MAX_TRANSCRIPT_BYTES < s
  · have hn : ¬ s ≤ MAX_TRANSCRIPT_BYTES := Nat.not_le.mpr h
    simp [h, hn]
  · have hle : s ≤ MAX_TRANSCRIPT_BYTES := Nat.le_of_not_lt h
    rw [if_neg h]
    cases r with
    | status code body =>
        by_cases h200 : code = 200
        · simp [h200, hle]
        · by_cases h409 : code = 409 <;> by_cases h413 : code = 413 <;>
            simp [h200, h409, h413, hle]
    | netError m => simp [hle]

/-- Within the size cap, `_upload_session` returns true exactly on the 200
and 409 status classes. -/
lemma uploadSession_success_eq (s : Nat) (r : HttpResult)
    (hle : s ≤ MAX_TRANSCRIPT_BYTES) :
    (uploadSession s r).success = isSuccessStatus r := by
  unfold uploadSession isSuccessStatus
  rw [if_neg (Nat.not_lt.mpr hle)]
  cases r with
  | status code body =>
      by_cases h200 : code = 200
      · simp [h200]
      · by_cases h409 : code = 409 <;> by_cases h413 : code = 413 <;>
          simp [h200, h409, h413]
  | netError m => rfl

/-- Above the size cap, `_upload_session` fails without a network call. -/
lemma uploadSession_oversize (s : Nat) (r : HttpResult)
    (h : MAX_TRANSCRIPT_BYTES < s) :
    uploadSession s r = ⟨false, false⟩ := by
  unfold uploadSession
  rw [if_pos h]

/-- `_extract_session_id` accepts any name at least 36 characters long
whose first 36 characters contain exactly 4 hyphens. -/
lemma extractSessionId_of_shape (name : String) (hlen : 36 ≤ name.length)
    (hcount : (name.toList.take 36).count '-' = 4) :
    extractSessionId name = some (String.mk (name.toList.take 36)) := by
  unfold extractSessionId
  rw [if_pos hlen]
  have hlen' : (name.toList.take 36).length = 36 := by
    rw [List.length_take]
    exact Nat.min_eq_left hlen
  simp only []
  rw [if_pos ⟨hlen', hcount⟩]

/-- Membership in the completed-candidate list, for a file whose id parses
and whose name matches the glob. -/
lemma mem_findCompletedSessions (files : List SFile) (active : List String)
    (f : SFile) (sid : String) (hid : extractSessionId f.name = some sid)
    (hglob : matchesJsonlGlob f.name = true) :
    f ∈ findCompletedSessions files active ↔ f ∈ files ∧ sid ∉ active := by
  unfold findCompletedSessions
  rw [List.mem_filter]
  simp [hid, hglob]

/-- The upload loop on a single candidate whose id parses: archive and
count on success, record an upload-failure error otherwise. -/
lemma processCompleted_single (resp : String → HttpResult) (f : SFile)
    (sid : String) (hid : extractSessionId f.name = some sid) :
    processCompleted resp [f] =
      if (uploadSession f.size (resp sid)).success
      then ⟨1, [], [f.name]⟩
      else ⟨0, ["Upload failed: " ++ sid], []⟩ := by
  by_cases hs : (uploadSession f.size (resp sid)).success = true <;>
    simp [processCompleted, hid, hs]

/-- In the upload loop, the number of files archived always equals the
`uploaded` counter. -/
lemma processCompleted_count (resp : String → HttpResult)
    (files : List SFile) :
    (processCompleted resp files).archived.length =
      (processCompleted resp files).uploaded := by
  induction files with
  | nil => rfl
  | cons f rest ih =>
      cases hx : extractSessionId f.name with
      | none => simp [processCompleted, hx, ih]
      | some sid =>
          by_cases hs : (uploadSession f.size (resp sid)).success = true <;>
            simp [processCompleted, hx, hs, ih] <;> omega

/-- Across all agents of a run, the number of files archived equals the
total `uploaded` counter. -/
lemma processAgents_count (agents : String → Option AgentCfg)
    (resp : String → String → HttpResult) (ids : List String) :
    (processAgents agents resp ids).archived.length =
      (processAgents agents resp ids).uploaded := by
  induction ids with
  | nil => rfl
  | cons aid rest ih =>
      cases ha : agents aid with
      | none => simp [processAgents, ha, ih]
      | some cfg =>
          by_cases hd : cfg.dirExists = true <;>
            simp [processAgents, processAgent, ha, hd, ih,
              processCompleted_count]

/-! ## Claim theorems -/

/-- C1: for a candidate session file within the size cap, a response with
status 200 or 409 is treated as success — the run counts the item, records
no error, and the file is moved into `archive/`; a 413, any other status,
or a network/transport failure is treated as failure — an upload-failed
error for that session is recorded in the job result's errors list and the
file is not archived. -/
theorem upload_status_policy (f : SFile) (sid : String) (r : HttpResult)
    (hid : extractSessionId f.name = some sid)
    (hglob : matchesJsonlGlob f.name = true)
    (hsize : f.size ≤ MAX_TRANSCRIPT_BYTES) :
    (isSuccessStatus r = true →
      runSessionUpload "job" ["a"] (fun _ => some ⟨true, [f], .missing⟩)
          (fun _ _ => r) =
        (⟨"job", true, "Uploaded 1 sessions", 1, []⟩, [f.name])) ∧
    (isSuccessStatus r = false →
      runSessionUpload "job" ["a"] (fun _ => some ⟨true, [f], .missing⟩)
          (fun _ _ => r) =
        (⟨"job", false, "Uploaded 0 sessions, 1 errors", 0,
            ["Upload failed: " ++ sid]⟩, [])) := by
  have hfind : findCompletedSessions [f] (getActiveSessions .missing) = [f] := by
    unfold findCompletedSessions getActiveSessions
    simp [hid, hglob]
  have hsucc := uploadSession_success_eq f.size r hsize
  constructor
  · intro hs
    have hproc : processCompleted (fun _ => r) [f] = ⟨1, [], [f.name]⟩ := by
      rw [processCompleted_single (fun _ => r) f sid hid, hsucc, hs]
      rfl
    have hagents : processAgents (fun _ => some ⟨true, [f], .missing⟩)
        (fun _ _ => r) ["a"] = ⟨1, [], [f.name]⟩ := by
      simp [processAgents, processAgent, hfind, hproc]
    have hmsg : ("Uploaded " ++ toString (1 : Nat) ++ " sessions") =
        "Uploaded 1 sessions" := by decide
    unfold runSessionUpload
    rw [if_neg (by decide : ¬ ((["a"] : List String).isEmpty = true))]
    simp only [hagents]
    simp [hmsg]
  · intro hs
    have hproc : processCompleted (fun _ => r) [f] =
        ⟨0, ["Upload failed: " ++ sid], []⟩ := by
      rw [processCompleted_single (fun _ => r) f sid hid, hsucc, hs]
      rfl
    have hagents : processAgents (fun _ => some ⟨true, [f], .missing⟩)
        (fun _ _ => r) ["a"] = ⟨0, ["Upload failed: " ++ sid], []⟩ := by
      simp [processAgents, processAgent, hfind, hproc]
    have hmsg : ("Uploaded " ++ toString (0 : Nat) ++ " sessions, " ++
        toString (1 : Nat) ++ " errors") = "Uploaded 0 sessions, 1 errors" := by
      decide
    unfold runSessionUpload
    rw [if_neg (by decide : ¬ ((["a"] : List String).isEmpty = true))]
    simp only [hagents]
    simp [hmsg]

/-- C1 witness: a 5 KiB file answered with 409 is counted, error-free, and
archived, exactly as on a 200. -/
theorem upload_status_policy_witness :
    runSessionUpload "job" ["a"]
        (fun _ => some ⟨true,
          [⟨"22222222-2222-2222-2222-222222222222.jsonl", 5120⟩], .missing⟩)
        (fun _ _ => HttpResult.status 409 "exists") =
      (⟨"job", true, "Uploaded 1 sessions", 1, []⟩,
        ["22222222-2222-2222-2222-222222222222.jsonl"]) :=
  (upload_status_policy ⟨"22222222-2222-2222-2222-222222222222.jsonl", 5120⟩
      "22222222-2222-2222-2222-222222222222" (HttpResult.status 409 "exists")
      (by decide) (by decide) (by decide)).1 (by decide)

/-- C2: the claim fails on the code — a file whose name cannot yield a
session id is dropped by `_find_completed_sessions` before the reporting
branch of `_process_agent`, so the run ends with success and an empty
errors list instead of an invalid-session-filename error; the second
conjunct shows the reporting branch is unreachable, since every file in
the completed list has a parseable id. -/
theorem invalid_filename_silently_dropped :
    (∀ resp : String → String → HttpResult,
      runSessionUpload "job" ["a1"]
          (fun _ => some ⟨true, [⟨"short.jsonl", 5⟩], .parsedDict []⟩) resp =
        (⟨"job", true, "Uploaded 0 sessions", 0, []⟩, [])) ∧
    (∀ (files : List SFile) (active : List String) (f : SFile),
      f ∈ findCompletedSessions files active →
        extractSessionId f.name ≠ none) := by
  constructor
  · intro resp
    have hfind : findCompletedSessions [⟨"short.jsonl", 5⟩]
        (getActiveSessions (.parsedDict [])) = [] := by decide
    have hagents : processAgents
        (fun _ => some ⟨true, [⟨"short.jsonl", 5⟩], .parsedDict []⟩) resp
        ["a1"] = ⟨0, [], []⟩ := by
      simp [processAgents, processAgent, hfind, processCompleted]
    have hmsg : ("Uploaded " ++ toString (0 : Nat) ++ " sessions") =
        "Uploaded 0 sessions" := by decide
    unfold runSessionUpload
    rw [if_neg (by decide : ¬ ((["a1"] : List String).isEmpty = true))]
    simp only [hagents]
    simp [hmsg]
  · intro files active f hmem hnone
    unfold findCompletedSessions at hmem
    rw [List.mem_filter] at hmem
    have h2 := hmem.2
    rw [hnone] at h2
    simp at h2

/-- C2 witness: a well-formed candidate name has a parseable id, as the
dead-branch statement requires. -/
theorem invalid_filename_silently_dropped_witness :
    extractSessionId "22222222-2222-2222-2222-222222222222.jsonl" ≠ none :=
  invalid_filename_silently_dropped.2
    [⟨"22222222-2222-2222-2222-222222222222.jsonl", 5⟩] []
    ⟨"22222222-2222-2222-2222-222222222222.jsonl", 5⟩ (by decide)

/-- C3: a file of exactly 10485760 bytes reaches the HTTP request; a file
strictly larger is refused with no network call, treated as a failure, and
left un-archived with an upload-failed error recorded. -/
theorem size_guard_boundary (f : SFile) (sid : String) (r : HttpResult)
    (hid : extractSessionId f.name = some sid) :
    (f.size = MAX_TRANSCRIPT_BYTES →
      (uploadSession f.size r).networkCall = true) ∧
    (MAX_TRANSCRIPT_BYTES < f.size →
      (uploadSession f.size r).networkCall = false ∧
      processCompleted (fun _ => r) [f] =
        ⟨0, ["Upload failed: " ++ sid], []⟩) := by
  constructor
  · intro heq
    rw [uploadSession_networkCall]
    simp [heq]
  · intro hgt
    have hov := uploadSession_oversize f.size r hgt
    refine ⟨by rw [hov], ?_⟩
    rw [processCompleted_single (fun _ => r) f sid hid, hov]
    rfl

/-- C3 witness: exactly 10485760 bytes issues the request; one byte more
does not. -/
theorem size_guard_boundary_witness :
    (uploadSession 10485760 (HttpResult.status 200 "ok")).networkCall = true ∧
    (uploadSession 10485761 (HttpResult.status 200 "ok")).networkCall = false :=
  ⟨(size_guard_boundary ⟨"33333333-3333-3333-3333-333333333333.jsonl", 10485760⟩
        "33333333-3333-3333-3333-333333333333" (HttpResult.status 200 "ok")
        (by decide)).1 rfl,
   ((size_guard_boundary ⟨"33333333-3333-3333-3333-333333333333.jsonl", 10485761⟩
        "33333333-3333-3333-3333-333333333333" (HttpResult.status 200 "ok")
        (by decide)).2 (by decide)).1⟩

/-- C4: the job result's `success` flag is true exactly when the errors
list is empty or at least one item was processed. -/
theorem run_success_iff_no_errors_or_progress (jobId : String)
    (agentIds : List String) (agents : String → Option AgentCfg)
    (resp : String → String → HttpResult) :
    (runSessionUpload jobId agentIds agents resp).1.success = true ↔
      (runSessionUpload jobId agentIds agents resp).1.errors = [] ∨
        0 < (runSessionUpload jobId agentIds agents resp).1.items_processed := by
  unfold runSessionUpload
  by_cases h : agentIds.isEmpty <;> simp [h]

/-- C5: `is_due` is true exactly when `last_run` is unset or the elapsed
time reaches `interval_minutes * 60` seconds; `mark_run` sets `last_run`
to now; a job with no prior run is due; and after `mark_run` the job stays
not due until the interval elapses, then becomes due. -/
theorem scheduler_due_iff_interval_elapsed (j : JobState) (now : Nat) :
    (isDue j now = true ↔
      j.last_run = none ∨
        ∃ t, j.last_run = some t ∧ j.interval_minutes * 60 ≤ now - t) ∧
    (markRun j now).last_run = some now ∧
    (j.last_run = none → isDue j now = true) ∧
    (∀ fut, fut - now < j.interval_minutes * 60 →
      isDue (markRun j now) fut = false) ∧
    (∀ fut, j.interval_minutes * 60 ≤ fut - now →
      isDue (markRun j now) fut = true) := by
  refine ⟨?_, rfl, ?_, ?_, ?_⟩
  · cases h : j.last_run with
    | none => simp [isDue, h]
    | some t => simp [isDue, h]
  · intro h
    simp [isDue, h]
  · intro fut hlt
    simp [isDue, markRun]
    omega
  · intro fut hge
    simp [isDue, markRun]
    omega

/-- C5 witness: with a 2-minute interval marked at t=100, the job is not
due at t=219 and due at t=220. -/
theorem scheduler_due_iff_interval_elapsed_witness :
    isDue (markRun ⟨"upload", true, 2, none⟩ 100) 219 = false ∧
    isDue (markRun ⟨"upload", true, 2, none⟩ 100) 220 = true :=
  ⟨(scheduler_due_iff_interval_elapsed ⟨"upload", true, 2, none⟩ 100).2.2.2.1 219
      (by decide),
   (scheduler_due_iff_interval_elapsed ⟨"upload", true, 2, none⟩ 100).2.2.2.2 220
      (by decide)⟩

/-- C6: `run_job` never propagates — on an exception from `job.run` it
returns a failed result with the exception text as message suffix and sole
error and zero items; on success it returns the job's own result; and on
both paths the job state afterwards has `last_run` advanced to now. -/
theorem runJob_catches_and_marks (j : JobState) (now : Nat)
    (outcome : Except String JobResult) :
    ((runJob j now outcome).2 = markRun j now) ∧
    (∀ e, outcome = Except.error e →
      (runJob j now outcome).1 = ⟨j.id, false, "Exception: " ++ e, 0, [e]⟩) ∧
    (∀ r, outcome = Except.ok r → (runJob j now outcome).1 = r) := by
  cases outcome with
  | ok r =>
      refine ⟨rfl, ?_, ?_⟩
      · intro e h
        simp at h
      · intro r' h
        cases h
        rfl
  | error e =>
      refine ⟨rfl, ?_, ?_⟩
      · intro e' h
        cases h
        rfl
      · intro r h
        simp at h

/-- C6 witness: an exception with text "boom" becomes a failed result with
that sole error. -/
theorem runJob_catches_and_marks_witness :
    (runJob ⟨"j1", true, 5, none⟩ 100 (Except.error "boom")).1 =
      ⟨"j1", false, "Exception: boom", 0, ["boom"]⟩ :=
  (runJob_catches_and_marks ⟨"j1", true, 5, none⟩ 100
      (Except.error "boom")).2.1 "boom" rfl

/-- C7: a missing or unreadable `sessions.json` yields the empty active
set; a glob-matching file whose id is a key of the parsed dict is excluded
from the completed candidates, and one whose id is absent is included. -/
theorem active_session_exclusion :
    getActiveSessions .missing = [] ∧
    getActiveSessions .unreadable = [] ∧
    ∀ (files : List SFile) (keys : List String) (f : SFile) (sid : String),
      f ∈ files → matchesJsonlGlob f.name = true →
      extractSessionId f.name = some sid →
      ((sid ∈ keys →
          f ∉ findCompletedSessions files
            (getActiveSessions (.parsedDict keys))) ∧
        (sid ∉ keys →
          f ∈ findCompletedSessions files
            (getActiveSessions (.parsedDict keys)))) := by
  refine ⟨rfl, rfl, ?_⟩
  intro files keys f sid hmem hglob hid
  constructor
  · intro hin hcontra
    rw [mem_findCompletedSessions files _ f sid hid hglob] at hcontra
    exact hcontra.2 hin
  · intro hout
    rw [mem_findCompletedSessions files _ f sid hid hglob]
    exact ⟨hmem, hout⟩

/-- C7 witness: with `sessions.json` listing the 1111... id and two files
on disk, only the non-matching 2222... file is a completed candidate. -/
theorem active_session_exclusion_witness :
    (⟨"11111111-1111-1111-1111-111111111111.jsonl", 10⟩ : SFile) ∉
      findCompletedSessions
        [⟨"11111111-1111-1111-1111-111111111111.jsonl", 10⟩,
          ⟨"22222222-2222-2222-2222-222222222222.jsonl", 10⟩]
        (getActiveSessions
          (.parsedDict ["11111111-1111-1111-1111-111111111111"])) ∧
    (⟨"22222222-2222-2222-2222-222222222222.jsonl", 10⟩ : SFile) ∈
      findCompletedSessions
        [⟨"11111111-1111-1111-1111-111111111111.jsonl", 10⟩,
          ⟨"22222222-2222-2222-2222-222222222222.jsonl", 10⟩]
        (getActiveSessions
          (.parsedDict ["11111111-1111-1111-1111-111111111111"])) :=
  ⟨(active_session_exclusion.2.2
      [⟨"11111111-1111-1111-1111-111111111111.jsonl", 10⟩,
        ⟨"22222222-2222-2222-2222-222222222222.jsonl", 10⟩]
      ["11111111-1111-1111-1111-111111111111"]
      ⟨"11111111-1111-1111-1111-111111111111.jsonl", 10⟩
      "11111111-1111-1111-1111-111111111111"
      (by decide) (by decide) (by decide)).1 (by decide),
   (active_session_exclusion.2.2
      [⟨"11111111-1111-1111-1111-111111111111.jsonl", 10⟩,
        ⟨"22222222-2222-2222-2222-222222222222.jsonl", 10⟩]
      ["11111111-1111-1111-1111-111111111111"]
      ⟨"22222222-2222-2222-2222-222222222222.jsonl", 10⟩
      "22222222-2222-2222-2222-222222222222"
      (by decide) (by decide) (by decide)).2 (by decide)⟩

/-- C8: with the `agents` option absent or empty, the run is a no-op
success — a true result with zero items and no errors — independent of the
agent registry and the HTTP oracle. -/
theorem run_no_agents_noop (jobId : String)
    (agents : String → Option AgentCfg)
    (resp : String → String → HttpResult) :
    runSessionUpload jobId (agentIdsOfConfig none) agents resp =
      (⟨jobId, true, "No agents configured", 0, []⟩, []) ∧
    runSessionUpload jobId (agentIdsOfConfig (some [])) agents resp =
      (⟨jobId, true, "No agents configured", 0, []⟩, []) :=
  ⟨rfl, rfl⟩

/-- C9: session-id validation checks only length and hyphen count — any
glob-matching name of 36 or more characters whose first 36 characters have
exactly 4 hyphens parses to an id, enters the candidate list when not
active, and is uploaded whenever within the size cap, with no hex check. -/
theorem no_hex_content_validation (files : List SFile) (active : List String)
    (f : SFile) (hmem : f ∈ files)
    (hglob : matchesJsonlGlob f.name = true)
    (hlen : 36 ≤ f.name.length)
    (hcount : (f.name.toList.take 36).count '-' = 4)
    (hact : String.mk (f.name.toList.take 36) ∉ active) :
    extractSessionId f.name = some (String.mk (f.name.toList.take 36)) ∧
    f ∈ findCompletedSessions files active ∧
    ∀ r, f.size ≤ MAX_TRANSCRIPT_BYTES →
      (uploadSession f.size r).networkCall = true := by
  have hid := extractSessionId_of_shape f.name hlen hcount
  refine ⟨hid, ?_, ?_⟩
  · rw [mem_findCompletedSessions files active f _ hid hglob]
    exact ⟨hmem, hact⟩
  · intro r hle
    rw [uploadSession_networkCall]
    simp [hle]

/-- C9 witness: a name of 36 z's and hyphens — not hex digits — is
accepted and becomes a completed candidate. -/
theorem no_hex_content_validation_witness :
    extractSessionId "zzzzzzzz-zzzz-zzzz-zzzz-zzzzzzzzzzzz.jsonl" =
      some "zzzzzzzz-zzzz-zzzz-zzzz-zzzzzzzzzzzz" ∧
    (⟨"zzzzzzzz-zzzz-zzzz-zzzz-zzzzzzzzzzzz.jsonl", 100⟩ : SFile) ∈
      findCompletedSessions
        [⟨"zzzzzzzz-zzzz-zzzz-zzzz-zzzzzzzzzzzz.jsonl", 100⟩] [] :=
  ⟨(no_hex_content_validation
      [⟨"zzzzzzzz-zzzz-zzzz-zzzz-zzzzzzzzzzzz.jsonl", 100⟩] []
      ⟨"zzzzzzzz-zzzz-zzzz-zzzz-zzzzzzzzzzzz.jsonl", 100⟩
      (by decide) (by decide) (by decide) (by decide) (by decide)).1,
   (no_hex_content_validation
      [⟨"zzzzzzzz-zzzz-zzzz-zzzz-zzzzzzzzzzzz.jsonl", 100⟩] []
      ⟨"zzzzzzzz-zzzz-zzzz-zzzz-zzzzzzzzzzzz.jsonl", 100⟩
      (by decide) (by decide) (by decide) (by decide) (by decide)).2.1⟩

/-- C10: `items_processed` equals the number of files moved into `archive/`
during the run, and a single candidate is counted, and archived, exactly
when its upload succeeded. -/
theorem items_processed_eq_archived_count (jobId : String)
    (agentIds : List String) (agents : String → Option AgentCfg)
    (resp : String → String → HttpResult) :
    ((runSessionUpload jobId agentIds agents resp).2.length =
      (runSessionUpload jobId agentIds agents resp).1.items_processed) ∧
    (∀ (f : SFile) (sid : String) (h : String → HttpResult),
      extractSessionId f.name = some sid →
      ((0 < (processCompleted h [f]).uploaded ↔
          (uploadSession f.size (h sid)).success = true) ∧
        ((processCompleted h [f]).archived ≠ [] ↔
          (uploadSession f.size (h sid)).success = true))) := by
  constructor
  · unfold runSessionUpload
    by_cases hh : agentIds.isEmpty <;> simp [hh, processAgents_count]
  · intro f sid h hid
    rw [processCompleted_single h f sid hid]
    by_cases hs : (uploadSession f.size (h sid)).success = true <;>
      simp [hs]

/-- C10 witness: a 409-answered candidate is counted as processed. -/
theorem items_processed_eq_archived_count_witness :
    0 < (processCompleted (fun _ => HttpResult.status 409 "dup")
          [⟨"44444444-4444-4444-4444-444444444444.jsonl", 9⟩]).uploaded :=
  ((items_processed_eq_archived_count "j" [] (fun _ => none)
        (fun _ _ => HttpResult.status 200 "")).2
      ⟨"44444444-4444-4444-4444-444444444444.jsonl", 9⟩
      "44444444-4444-4444-4444-444444444444"
      (fun _ => HttpResult.status 409 "dup") (by decide)).1.mpr (by decide)

end Nexus
